import Mathlib

/-!
Verification of the chat-client core of this repository
(`src/components/Generator.tsx` and `src/components/Setting.tsx`).

The component is a SolidJS view whose handlers mutate a small set of
signals: the current message list, the partial assistant buffer
(`currentAssistantMessage`), the loading flag, the abort controller, the
current role, and the `localStorage`-backed chat history.  Handlers run to
completion between `await` points, so each handler is embedded as a pure
function on an explicit session state.  `localStorage` is part of the
state (field `history`); the abort controller is embedded as
`Option Bool`, the `Bool` being its `signal.aborted` flag.
-/

namespace QHGPT

/-- A role descriptor as fetched from `/api/generate`
(`interface Role` in Generator.tsx); `fc` is the welcome text. -/
structure Role where
  role : String
  avatar : String
  fc : String
deriving DecidableEq, Repr

/-- The speaker tag of a chat message (`ChatMessage.role` in the source,
one of `'user' | 'assistant' | 'system'`). -/
inductive Speaker where
  | user
  | assistant
  | system
deriving DecidableEq, Repr

/-- A chat message (`ChatMessage` in the source). -/
structure ChatMessage where
  role : Speaker
  content : String
deriving DecidableEq, Repr

/-- The persisted chat history: the JS object stored under
`ai-buddha-chat-history`, a record from role identifier to message list.
A key absent from the record is `none`. -/
def HistMap : Type := String → Option (List ChatMessage)

/-- The empty history record `{}`. -/
def emptyHist : HistMap := fun _ => none

/-- Setting one key of the history record (`history[rid] = msgs`) and
writing the whole record back (`saveChatHistory`). -/
def histSet (hist : HistMap) (rid : String) (msgs : List ChatMessage) : HistMap :=
  fun k => if k = rid then some msgs else hist k

/-- `structuredClone` on a message list: a deep copy, rebuilding every
message record.  On immutable values it is extensionally the identity
(lemma `structuredClone_eq`); it is kept explicit because the source
relies on it for snapshot isolation. -/
def structuredClone (msgs : List ChatMessage) : List ChatMessage :=
  msgs.map fun m => { role := m.role, content := m.content }

/-- The session state owned by the Generator component: the signals
`messageList`, `currentAssistantMessage`, `loading`, `controller`,
`currentRole`, together with the `localStorage` history blob. -/
structure State where
  messageList : List ChatMessage
  currentAssistantMessage : String
  loading : Bool
  controller : Option Bool
  currentRole : Option Role
  history : HistMap

/-- `saveCurrentMessages(roleToSave, messagesToSave)`: load the history,
overwrite the entry of `roleToSave.role` with a `structuredClone` of the
messages, save the whole record. -/
def saveCurrentMessages (roleToSave : Role) (messagesToSave : List ChatMessage)
    (hist : HistMap) : HistMap :=
  histSet hist roleToSave.role (structuredClone messagesToSave)

/-- The welcome message synthesized from a role's `fc` text. -/
def welcomeMessage (r : Role) : ChatMessage :=
  { role := Speaker.assistant, content := r.fc }

/-- `handleRoleChange(newRole, initialHistory?)`: persist the outgoing
role's list when a different role was active, switch `currentRole`, adopt
the new role's stored history when non-empty or seed and persist a single
welcome message otherwise, then reset buffer, loading and controller. -/
def handleRoleChange (newRole : Role) (initialHistory : Option HistMap)
    (s : State) : State :=
  let hist1 : HistMap :=
    match s.currentRole with
    | some oldRole =>
        if oldRole.role ≠ newRole.role then
          saveCurrentMessages oldRole s.messageList s.history
        else s.history
    | none => s.history
  let lookupSrc : HistMap := initialHistory.getD hist1
  let newRoleHistory := lookupSrc newRole.role
  let seeded : List ChatMessage × HistMap :=
    ([welcomeMessage newRole], histSet hist1 newRole.role [welcomeMessage newRole])
  let adopted : List ChatMessage × HistMap :=
    match newRoleHistory with
    | some l => if l.length > 0 then (l, hist1) else seeded
    | none => seeded
  { messageList := adopted.1
    currentAssistantMessage := ""
    loading := false
    controller := none
    currentRole := some newRole
    history := adopted.2 }

/-- `archiveCurrentMessage()`: when the partial buffer is non-empty and a
role is active, append the buffer as an assistant message, persist the
new list, clear the buffer, clear loading, clear the controller. -/
def archiveCurrentMessage (s : State) : State :=
  match s.currentRole with
  | some role =>
      if s.currentAssistantMessage ≠ "" then
        let newAssistantMessage : ChatMessage :=
          { role := Speaker.assistant, content := s.currentAssistantMessage }
        let newMessages := s.messageList ++ [newAssistantMessage]
        { s with
          messageList := newMessages
          history := saveCurrentMessages role newMessages s.history
          currentAssistantMessage := ""
          loading := false
          controller := none }
      else s
  | none => s

/-- `clear()`: reset the active role's conversation to its single welcome
message and persist the reset. -/
def clear (s : State) : State :=
  match s.currentRole with
  | some role =>
      { s with
        messageList := [welcomeMessage role]
        currentAssistantMessage := ""
        history := saveCurrentMessages role [welcomeMessage role] s.history }
  | none => s

/-- The synchronous prefix of `requestWithLatestMessage`: the guard on
`currentRole`, `setLoading(true)`, clearing the buffer, and installing a
fresh (un-aborted) `AbortController`. -/
def requestSyncStart (s : State) : State :=
  match s.currentRole with
  | some _ =>
      { s with loading := true, currentAssistantMessage := "", controller := some false }
  | none => s

/-- `handleButtonClick()` with the textarea content as argument: reject
blank input or a missing role, otherwise append the trimmed user message,
persist, and start the request (its synchronous prefix). -/
def handleButtonClick (inputRefValue : String) (s : State) : State :=
  let inputValue := inputRefValue.trim
  match s.currentRole with
  | some role =>
      if inputValue = "" then s
      else
        let userMessage : ChatMessage := { role := Speaker.user, content := inputValue }
        let newMessages := s.messageList ++ [userMessage]
        requestSyncStart
          { s with
            messageList := newMessages
            history := saveCurrentMessages role newMessages s.history }
  | none => s

/-- JS `String.prototype.includes(pat)` on the decoded character lists:
does `pat` occur as a contiguous substring of `s`? -/
def isPrefixL : List Char → List Char → Bool
  | [], _ => true
  | _ :: _, [] => false
  | p :: ps, c :: cs => p == c && isPrefixL ps cs

/-- Helper for `strIncludes`: does `pat` occur in the char list? -/
def containsSub (pat : List Char) : List Char → Bool
  | [] => isPrefixL pat []
  | c :: cs => isPrefixL pat (c :: cs) || containsSub pat cs

/-- `s.includes(pat)` from the source's error-marker filter. -/
def strIncludes (s pat : String) : Bool :=
  containsSub pat.data s.data

/-- The error marker `'⚠️'` used by the request filter. -/
def errorMarker : String := "⚠️"

/-- First statement of the request construction in
`requestWithLatestMessage`: `requestMessageList.shift()` when the list
starts with an assistant message whose content equals the current role's
welcome text (`initialWelcome`, looked up in the registry). -/
def dropLeadingWelcome (roles : List Role) (currentRole : Role)
    (l : List ChatMessage) : List ChatMessage :=
  let initialWelcome := (roles.find? fun r => r.role == currentRole.role).map Role.fc
  match l with
  | m :: rest =>
      if m.role = Speaker.assistant ∧ some m.content = initialWelcome then rest else l
  | [] => l

/-- Second statement:
`requestMessageList.filter((item) => !item.content.includes('⚠️'))`. -/
def filterErrorMarked (l : List ChatMessage) : List ChatMessage :=
  l.filter fun item => ! strIncludes item.content errorMarker

/-- Third statement: when more than 15 messages remain, keep
`slice(0, 3)` and `slice(-12)`. -/
def capMessages (l : List ChatMessage) : List ChatMessage :=
  if l.length > 15 then l.take 3 ++ l.drop (l.length - 12) else l

/-- Request construction from `requestWithLatestMessage` (the part that
builds `requestMessageList`): clone the current list, then apply the
three statements in order. -/
def buildRequestMessages (roles : List Role) (currentRole : Role)
    (messageList : List ChatMessage) : List ChatMessage :=
  capMessages (filterErrorMarked
    (dropLeadingWelcome roles currentRole (structuredClone messageList)))

/-- JS `buffer.endsWith('\n')`: the buffer's last character is a
newline. -/
def endsWithNL (s : String) : Bool :=
  s.data.getLast? == some '\n'

/-- One iteration of the stream-read loop on a decoded chunk: a chunk that
is exactly `'\n'` is skipped when the buffer already ends in `'\n'`;
otherwise a non-empty chunk is appended to the buffer. -/
def processChunk (buffer chunk : String) : String :=
  if chunk = "\n" ∧ endsWithNL buffer then buffer
  else if chunk ≠ "" then buffer ++ chunk
  else buffer

/-- The whole stream-read loop: fold `processChunk` over the decoded
chunks in arrival order. -/
def streamChunks (buffer : String) (chunks : List String) : String :=
  chunks.foldl processChunk buffer

/-- `stopStreamFetch()`: when a controller exists, abort it and archive
the partial buffer directly. -/
def stopStreamFetch (s : State) : State :=
  match s.controller with
  | some _ => archiveCurrentMessage { s with controller := some true }
  | none => s

/-- The `finally` block of `requestWithLatestMessage`:
`if (!controller()?.signal.aborted) archiveCurrentMessage()`.  Reading the
signal through the optional chain, a `null` controller yields `undefined`,
whose negation is truthy, so archiving also runs then. -/
def finallyStep (s : State) : State :=
  match s.controller with
  | some aborted => if aborted then s else archiveCurrentMessage s
  | none => archiveCurrentMessage s

/-- The fate of one generation request's transport, seen from the client:
a successful stream of decoded chunks; a non-2xx response
(`throw Error(response.statusText)`); a missing body
(`throw Error('No data')`); a network error carrying its message,
possibly after some chunks arrived; or a user-invoked stop while chunks
were streaming. -/
inductive TransportOutcome where
  | success (chunks : List String)
  | httpError (statusText : String)
  | noBody
  | networkError (chunksBefore : List String) (message : String)
  | userAbort (chunksBefore : List String)

/-- The error text the catch block shows for non-abort failures. -/
def errorText (message : String) : String :=
  "出现错误：" ++ message

/-- `requestWithLatestMessage` as a state transformer for a given
transport outcome: the synchronous prefix, then the streaming loop or the
catch path (which replaces the buffer with `出现错误：<message>` unless the
failure is the `AbortError` of the user's own stop), then the `finally`
block.  On `userAbort`, `stopStreamFetch` runs between the last chunk and
the rejection of the pending read. -/
def runRequest (outcome : TransportOutcome) (s : State) : State :=
  match s.currentRole with
  | none => s
  | some _ =>
      let s0 := requestSyncStart s
      match outcome with
      | .success chunks =>
          finallyStep { s0 with currentAssistantMessage := streamChunks "" chunks }
      | .httpError statusText =>
          finallyStep { s0 with currentAssistantMessage := errorText statusText }
      | .noBody =>
          finallyStep { s0 with currentAssistantMessage := errorText "No data" }
      | .networkError chunksBefore message =>
          let s1 := { s0 with currentAssistantMessage := streamChunks "" chunksBefore }
          finallyStep { s1 with currentAssistantMessage := errorText message }
      | .userAbort chunksBefore =>
          let s1 := { s0 with currentAssistantMessage := streamChunks "" chunksBefore }
          finallyStep (stopStreamFetch s1)

/-- `retryLastFetch()`: when a role is active, the list is non-empty and
its last message is from the assistant, drop that message, persist the
truncated list, and issue one request built from it (second component:
the issued request's message list, `none` when no request is issued). -/
def retryLastFetch (roles : List Role) (s : State) : State × Option (List ChatMessage) :=
  match s.currentRole with
  | some role =>
      if s.messageList.length > 0 then
        match s.messageList.getLast? with
        | some lastMessage =>
            if lastMessage.role = Speaker.assistant then
              let newMessages := s.messageList.dropLast
              let s1 :=
                { s with
                  messageList := newMessages
                  history := saveCurrentMessages role newMessages s.history }
              (requestSyncStart s1, some (buildRequestMessages roles role newMessages))
            else (s, none)
        | none => (s, none)
      else (s, none)
  | none => (s, none)

/-- `loadChatHistory()`: the stored blob under the history key (or `none`
when the key is missing) and the behaviour of `JSON.parse` on it, given
as `parse`.  Returns the history record together with the diagnostic
messages emitted (`console.error` on a parse failure): a missing key
yields `{}`; a parse failure is caught, reported, and yields `{}`. -/
def loadChatHistory (stored : Option String)
    (parse : String → Except String HistMap) : HistMap × List String :=
  match stored with
  | none => (emptyHist, [])
  | some blob =>
      match parse blob with
      | .ok h => (h, [])
      | .error e => (emptyHist, ["解析聊天记录失败:" ++ e])

/-- The model-provider enumeration of `Setting.tsx`
(`'siliconflow' | '302ai'`). -/
inductive ModelProvider where
  | siliconflow
  | threeohtwo
deriving DecidableEq, Repr

/-- A parsed settings record as it may come out of `localStorage`: every
field optional, since older saved data may lack fields that were added
later.  The fields are the union of those the code ever writes: the
current `Setting` interface of `Setting.tsx` plus the pre-refactor
`openaiAPIKey` still present in `defaultSetting`. -/
structure StoredSetting where
  modelProvider : Option ModelProvider
  siliconflowAPIKey : Option String
  threeohtwoAPIKey : Option String
  openaiAPIKey : Option String
  customRule : Option String
  openaiAPITemperature : Option Nat
  roleAvatar : Option String
deriving DecidableEq, Repr

/-- A stored record with no fields at all (older saved data `{}`). -/
def emptyStored : StoredSetting :=
  { modelProvider := none, siliconflowAPIKey := none, threeohtwoAPIKey := none,
    openaiAPIKey := none, customRule := none, openaiAPITemperature := none,
    roleAvatar := none }

/-- `defaultSetting` from Generator.tsx:
`{ openaiAPIKey: "", customRule: "", openaiAPITemperature: 70 }` — note it
carries only the three pre-refactor fields. -/
def defaultSetting : StoredSetting :=
  { emptyStored with
    openaiAPIKey := some "", customRule := some "", openaiAPITemperature := some 70 }

/-- The spread merge `{ ...defaultSetting, ...JSON.parse(storage) }` run
on settings load: per field, the stored value when defined, else the
default, else `undefined`. -/
def mergeSetting (stored : StoredSetting) : StoredSetting :=
  { modelProvider := stored.modelProvider.orElse fun _ => defaultSetting.modelProvider
    siliconflowAPIKey := stored.siliconflowAPIKey.orElse fun _ => defaultSetting.siliconflowAPIKey
    threeohtwoAPIKey := stored.threeohtwoAPIKey.orElse fun _ => defaultSetting.threeohtwoAPIKey
    openaiAPIKey := stored.openaiAPIKey.orElse fun _ => defaultSetting.openaiAPIKey
    customRule := stored.customRule.orElse fun _ => defaultSetting.customRule
    openaiAPITemperature :=
      stored.openaiAPITemperature.orElse fun _ => defaultSetting.openaiAPITemperature
    roleAvatar := stored.roleAvatar.orElse fun _ => defaultSetting.roleAvatar }

/-- The `Setting` interface of `Setting.tsx`: `modelProvider`,
`siliconflowAPIKey`, `threeohtwoAPIKey`, `customRule` and
`openaiAPITemperature` are required fields (only `roleAvatar` is
optional), so a record satisfies the interface exactly when those five
are defined. -/
def settingComplete (st : StoredSetting) : Prop :=
  st.modelProvider.isSome ∧ st.siliconflowAPIKey.isSome ∧ st.threeohtwoAPIKey.isSome
    ∧ st.customRule.isSome ∧ st.openaiAPITemperature.isSome

/-- The session-level operations that can touch the persisted history or
the message list: a role switch, a send, an archive, a clear, a retry, a
stop, and a full generation request. -/
inductive Op where
  | roleChange (newRole : Role) (seed : Option HistMap)
  | send (input : String)
  | archive
  | clear
  | retry (roles : List Role)
  | stop
  | request (outcome : TransportOutcome)

/-- One handler invocation. -/
def applyOp (op : Op) (s : State) : State :=
  match op with
  | .roleChange newRole seed => handleRoleChange newRole seed s
  | .send input => handleButtonClick input s
  | .archive => archiveCurrentMessage s
  | .clear => clear s
  | .retry roles => (retryLastFetch roles s).1
  | .stop => stopStreamFetch s
  | .request outcome => runRequest outcome s

/-! ## Helper lemmas -/

theorem structuredClone_eq (msgs : List ChatMessage) : structuredClone msgs = msgs := by
  induction msgs with
  | nil => rfl
  | cons m rest ih =>
      cases m
      simp only [structuredClone, List.map_cons] at *
      rw [ih]

theorem histSet_same (hist : HistMap) (rid : String) (msgs : List ChatMessage) :
    histSet hist rid msgs rid = some msgs := by
  simp [histSet]

theorem histSet_other (hist : HistMap) (rid : String) (msgs : List ChatMessage)
    (k : String) (hk : k ≠ rid) : histSet hist rid msgs k = hist k := by
  simp [histSet, hk]

theorem dropLeadingWelcome_sublist (roles : List Role) (r : Role) (l : List ChatMessage) :
    (dropLeadingWelcome roles r l).Sublist l := by
  unfold dropLeadingWelcome
  cases l with
  | nil => simp
  | cons m rest =>
      by_cases h : m.role = Speaker.assistant ∧
          some m.content = ((roles.find? fun x => x.role == r.role).map Role.fc)
      · simp only [if_pos h]
        exact List.sublist_cons_self _ _
      · simp [h]

theorem capMessages_sublist (l : List ChatMessage) : (capMessages l).Sublist l := by
  unfold capMessages
  by_cases h : l.length > 15
  · rw [if_pos h]
    have h3 : l.take 3 = (l.take (l.length - 12)).take 3 := by
      rw [List.take_take]
      congr 1
      omega
    have happ : (l.take 3 ++ l.drop (l.length - 12)).Sublist
        (l.take (l.length - 12) ++ l.drop (l.length - 12)) :=
      List.Sublist.append (by rw [h3]; exact List.take_sublist _ _) (List.Sublist.refl _)
    rw [List.take_append_drop] at happ
    exact happ
  · rw [if_neg h]

theorem capMessages_length (l : List ChatMessage) (h : l.length > 15) :
    (capMessages l).length = 15 := by
  unfold capMessages
  rw [if_pos h]
  simp only [List.length_append, List.length_take, List.length_drop]
  omega

/-! ## Sample data for witnesses -/

/-- A sample role. -/
def roleBuddha : Role := { role := "佛陀", avatar := "buddha.png", fc := "善哉" }

/-- Another sample role. -/
def roleZen : Role := { role := "禅师", avatar := "zen.png", fc := "喫茶去" }

/-- Shorthand for a user message. -/
def msgU (c : String) : ChatMessage := { role := Speaker.user, content := c }

/-- Shorthand for an assistant message. -/
def msgA (c : String) : ChatMessage := { role := Speaker.assistant, content := c }

/-! ## Claim theorems -/

/-- C10: with an empty partial buffer or no active role, the archive
operation is the identity on the whole session state (message list,
history, loading flag, controller all unchanged); and the message list
only ever grows by an assistant message whose content is the (non-empty)
buffer, so no empty assistant message is ever appended. -/
theorem archive_noop_on_empty_buffer (s : State) :
    ((s.currentAssistantMessage = "" ∨ s.currentRole = none) → archiveCurrentMessage s = s) ∧
    ((archiveCurrentMessage s).messageList = s.messageList ∨
      (s.currentAssistantMessage ≠ "" ∧
        (archiveCurrentMessage s).messageList =
          s.messageList ++ [{ role := Speaker.assistant,
                              content := s.currentAssistantMessage }])) := by
  constructor
  · rintro (h | h)
    · unfold archiveCurrentMessage
      cases hc : s.currentRole <;> simp [h]
    · unfold archiveCurrentMessage
      rw [h]
  · unfold archiveCurrentMessage
    cases hc : s.currentRole with
    | none => left; rfl
    | some r =>
        by_cases hb : s.currentAssistantMessage = ""
        · left; simp [hb]
        · right; exact ⟨hb, by simp [hb]⟩

/-- Witness for C10 at a concrete state with an empty buffer. -/
theorem archive_noop_on_empty_buffer_witness :
    archiveCurrentMessage
      { messageList := [msgA "善哉"], currentAssistantMessage := "", loading := true,
        controller := some false, currentRole := some roleBuddha, history := emptyHist } =
      { messageList := [msgA "善哉"], currentAssistantMessage := "", loading := true,
        controller := some false, currentRole := some roleBuddha, history := emptyHist } :=
  (archive_noop_on_empty_buffer _).1 (Or.inl rfl)

/-- C8: `loadChatHistory` returns the empty record when the store key is
missing, and on malformed stored data (any blob the parser rejects) it
returns the empty record while emitting a diagnostic message; being a
total function, it never throws past the adapter boundary. -/
theorem loadChatHistory_defaults (stored : Option String)
    (parse : String → Except String HistMap) :
    (stored = none → loadChatHistory stored parse = (emptyHist, [])) ∧
    (∀ blob e, stored = some blob → parse blob = .error e →
      (loadChatHistory stored parse).1 = emptyHist ∧
        (loadChatHistory stored parse).2 ≠ []) := by
  constructor
  · intro h
    rw [h]
    rfl
  · intro blob e hs hp
    subst hs
    simp [loadChatHistory, hp]

/-- Witness for C8: a concrete malformed blob with a failing parser. -/
theorem loadChatHistory_defaults_witness :
    (loadChatHistory (some "not json") (fun _ => Except.error "Unexpected token")).1 = emptyHist ∧
      (loadChatHistory (some "not json") (fun _ => Except.error "Unexpected token")).2 ≠ [] :=
  (loadChatHistory_defaults (some "not json") (fun _ => Except.error "Unexpected token")).2
    "not json" "Unexpected token" rfl rfl

/-- Sixteen marker-free user messages, for exercising the cap. -/
def sixteenMsgs : List ChatMessage := (List.range 16).map fun i => msgU (toString i)

/-- C2: a constructed request's message list is the current list taken
through the three stages in order — drop a leading welcome message,
remove every error-marked message, cap to the first 3 plus the last 12 —
and consequently it is a sublist of the current list (original relative
order), it contains no message with the error marker, and whenever more
than 15 messages survive the filter it has exactly 15 entries. -/
theorem buildRequest_pipeline (roles : List Role) (currentRole : Role)
    (msgs : List ChatMessage) :
    buildRequestMessages roles currentRole msgs =
      capMessages (filterErrorMarked (dropLeadingWelcome roles currentRole msgs)) ∧
    (buildRequestMessages roles currentRole msgs).Sublist msgs ∧
    (∀ m ∈ buildRequestMessages roles currentRole msgs,
      strIncludes m.content errorMarker = false) ∧
    ((filterErrorMarked (dropLeadingWelcome roles currentRole msgs)).length > 15 →
      (buildRequestMessages roles currentRole msgs).length = 15) := by
  unfold buildRequestMessages
  rw [structuredClone_eq]
  refine ⟨rfl, ?_, ?_, ?_⟩
  · have h1 := capMessages_sublist (filterErrorMarked (dropLeadingWelcome roles currentRole msgs))
    have h2 : (filterErrorMarked (dropLeadingWelcome roles currentRole msgs)).Sublist
        (dropLeadingWelcome roles currentRole msgs) := List.filter_sublist _
    exact (h1.trans h2).trans (dropLeadingWelcome_sublist roles currentRole msgs)
  · intro m hm
    have h2 := (capMessages_sublist _).subset hm
    unfold filterErrorMarked at h2
    have h3 := List.mem_filter.mp h2
    simpa using h3.2
  · intro h
    exact capMessages_length _ h

/-- Witness for C2: sixteen marker-free user messages survive the filter,
so the constructed request has exactly 15 entries. -/
theorem buildRequest_pipeline_witness :
    (buildRequestMessages [roleBuddha] roleBuddha sixteenMsgs).length = 15 :=
  (buildRequest_pipeline [roleBuddha] roleBuddha sixteenMsgs).2.2.2 (by decide)

/-- The pre-switch save in `handleRoleChange` never touches the incoming
role's history entry: the looked-up value equals the stored one. -/
theorem hist_after_save_lookup (newRole : Role) (s : State) :
    (match s.currentRole with
     | some oldRole =>
         if oldRole.role ≠ newRole.role then
           saveCurrentMessages oldRole s.messageList s.history
         else s.history
     | none => s.history) newRole.role = s.history newRole.role := by
  cases hcr : s.currentRole with
  | none => rfl
  | some old =>
      by_cases h : old.role ≠ newRole.role
      · simp only [if_pos h]
        exact histSet_other s.history old.role _ newRole.role (Ne.symm h)
      · simp only [if_neg h]

/-- C3: switching (with no seed map) to a role whose stored history is
missing or empty sets the current list to the single welcome message and
persists that single-message list under the role's identifier; a
non-empty stored history is adopted verbatim as the current list. -/
theorem switchRole_seeds_or_adopts (newRole : Role) (s : State) :
    ((s.history newRole.role = none ∨ s.history newRole.role = some []) →
      (handleRoleChange newRole none s).messageList = [welcomeMessage newRole] ∧
      (handleRoleChange newRole none s).history newRole.role =
        some [welcomeMessage newRole]) ∧
    (∀ l, s.history newRole.role = some l → l ≠ [] →
      (handleRoleChange newRole none s).messageList = l) := by
  constructor
  · rintro (h | h) <;>
      · rcases hcr : s.currentRole with _ | old
        · constructor <;> simp [handleRoleChange, hcr, h, histSet_same]
        · by_cases hor : old.role = newRole.role
          · constructor <;>
              simp [handleRoleChange, saveCurrentMessages, histSet, hcr, hor, h]
          · have hor' : ¬ newRole.role = old.role := fun hh => hor hh.symm
            constructor <;>
              simp [handleRoleChange, saveCurrentMessages, histSet, hcr, hor, hor', h]
  · intro l hl hlen
    have hlen' : l.length > 0 := List.length_pos.mpr hlen
    rcases hcr : s.currentRole with _ | old
    · simp [handleRoleChange, hcr, hl, hlen']
    · by_cases hor : old.role = newRole.role
      · simp [handleRoleChange, saveCurrentMessages, histSet, hcr, hor, hl, hlen']
      · have hor' : ¬ newRole.role = old.role := fun hh => hor hh.symm
        simp [handleRoleChange, saveCurrentMessages, histSet, hcr, hor, hor', hl, hlen']

/-- Witness for C3: switching to a role with no stored history, from a
state where another role is active. -/
theorem switchRole_seeds_or_adopts_witness :
    (handleRoleChange roleZen none
      { messageList := [msgA "善哉", msgU "你好"], currentAssistantMessage := "",
        loading := false, controller := none, currentRole := some roleBuddha,
        history := emptyHist }).messageList = [welcomeMessage roleZen] ∧
    (handleRoleChange roleZen none
      { messageList := [msgA "善哉", msgU "你好"], currentAssistantMessage := "",
        loading := false, controller := none, currentRole := some roleBuddha,
        history := emptyHist }).history roleZen.role = some [welcomeMessage roleZen] :=
  (switchRole_seeds_or_adopts roleZen _).1 (Or.inl rfl)

/-- C5: one streamed chunk is appended to the buffer exactly when it is
not a lone newline arriving while the buffer already ends in a newline
(an empty chunk appends nothing either way); chunks are folded in arrival
order, and streaming `"Hello "` then `"world"` through a full successful
request archives one assistant message with content `"Hello world"`. -/
theorem stream_append_order :
    (∀ buffer chunk, processChunk buffer chunk =
      if chunk = "\n" ∧ endsWithNL buffer then buffer else buffer ++ chunk) ∧
    (∀ buffer chunk chunks, streamChunks buffer (chunk :: chunks) =
      streamChunks (processChunk buffer chunk) chunks) ∧
    (∀ s r, s.currentRole = some r →
      (runRequest (.success ["Hello ", "world"]) s).messageList =
        s.messageList ++ [{ role := Speaker.assistant, content := "Hello world" }]) := by
  refine ⟨?_, ?_, ?_⟩
  · intro buffer chunk
    unfold processChunk
    by_cases h1 : chunk = "\n" ∧ endsWithNL buffer
    · rw [if_pos h1, if_pos h1]
    · rw [if_neg h1, if_neg h1]
      by_cases h2 : chunk ≠ ""
      · rw [if_pos h2]
      · rw [if_neg h2]
        push_neg at h2
        subst h2
        cases buffer
        simp [String.append]
  · intro buffer chunk chunks
    rfl
  · intro s r hr
    have hstream : streamChunks "" ["Hello ", "world"] = "Hello world" := by decide
    simp [runRequest, hr, requestSyncStart, finallyStep, hstream, archiveCurrentMessage]

/-- Witness for C5 at a concrete mid-conversation state. -/
theorem stream_append_order_witness :
    (runRequest (.success ["Hello ", "world"])
      { messageList := [msgU "hi"], currentAssistantMessage := "", loading := false,
        controller := none, currentRole := some roleBuddha,
        history := emptyHist }).messageList =
      [msgU "hi"] ++ [{ role := Speaker.assistant, content := "Hello world" }] :=
  stream_append_order.2.2 _ roleBuddha rfl

/-- C7: with an active role, when the current message list ends in an
assistant message, retry drops exactly that message, persists the
truncated list under the current role, and issues exactly one request
built from the truncated list; when the last message is not from the
assistant (or the list is empty) it changes nothing and issues no
request. -/
theorem retry_regenerates (roles : List Role) (s : State) (role : Role)
    (hr : s.currentRole = some role) :
    (∀ init last, s.messageList = init ++ [last] → last.role = Speaker.assistant →
      (retryLastFetch roles s).1.messageList = init ∧
      (retryLastFetch roles s).1.history role.role = some init ∧
      (retryLastFetch roles s).2 = some (buildRequestMessages roles role init)) ∧
    (∀ init last, s.messageList = init ++ [last] → last.role ≠ Speaker.assistant →
      (retryLastFetch roles s).1 = s ∧ (retryLastFetch roles s).2 = none) ∧
    (s.messageList = [] →
      (retryLastFetch roles s).1 = s ∧ (retryLastFetch roles s).2 = none) := by
  refine ⟨?_, ?_, ?_⟩
  · intro init last hml hrole
    have hlen : s.messageList.length > 0 := by rw [hml]; simp
    have hlast : s.messageList.getLast? = some last := by
      rw [hml]; exact List.getLast?_concat _
    have hdrop : s.messageList.dropLast = init := by
      rw [hml]; exact List.dropLast_concat ..
    refine ⟨?_, ?_, ?_⟩ <;>
      simp [retryLastFetch, hr, hlen, hlast, hrole, hdrop, requestSyncStart,
        saveCurrentMessages, histSet_same, structuredClone_eq]
  · intro init last hml hrole
    have hlen : s.messageList.length > 0 := by rw [hml]; simp
    have hlast : s.messageList.getLast? = some last := by
      rw [hml]; exact List.getLast?_concat _
    constructor <;> simp [retryLastFetch, hr, hlen, hlast, hrole]
  · intro hml
    constructor <;> simp [retryLastFetch, hr, hml]

/-- Witness for C7: retrying after an assistant answer. -/
theorem retry_regenerates_witness :
    (retryLastFetch [roleBuddha]
      { messageList := [msgU "问", msgA "答"], currentAssistantMessage := "",
        loading := false, controller := none, currentRole := some roleBuddha,
        history := emptyHist }).1.messageList = [msgU "问"] ∧
    (retryLastFetch [roleBuddha]
      { messageList := [msgU "问", msgA "答"], currentAssistantMessage := "",
        loading := false, controller := none, currentRole := some roleBuddha,
        history := emptyHist }).2 =
      some (buildRequestMessages [roleBuddha] roleBuddha [msgU "问"]) := by
  have h := (retry_regenerates [roleBuddha]
    { messageList := [msgU "问", msgA "答"], currentAssistantMessage := "",
      loading := false, controller := none, currentRole := some roleBuddha,
      history := emptyHist } roleBuddha rfl).1 [msgU "问"] (msgA "答") rfl rfl
  exact ⟨h.1, h.2.2⟩

/-- C9 (failing-input evaluation): merging older saved settings that lack
the provider fields (for example a first run, or data saved before the
provider refactor) with `defaultSetting` leaves `modelProvider`,
`siliconflowAPIKey` and `threeohtwoAPIKey` undefined — `defaultSetting`
still carries only the pre-refactor `openaiAPIKey` field — so the merged
record does not satisfy the `Setting` interface of Setting.tsx and no
provider is selected. -/
theorem mergeSetting_leaves_provider_undefined :
    (mergeSetting emptyStored).modelProvider = none ∧
    (mergeSetting emptyStored).siliconflowAPIKey = none ∧
    (mergeSetting emptyStored).threeohtwoAPIKey = none ∧
    (mergeSetting emptyStored).openaiAPIKey = some "" ∧
    ¬ settingComplete (mergeSetting emptyStored) := by
  refine ⟨rfl, rfl, rfl, rfl, ?_⟩
  intro h
  exact absurd h.1 (by decide)

/-- The buffer text the catch block sets on a non-abort failure is never
empty, so it always gets archived as a message. -/
theorem errorText_ne_empty (m : String) : errorText m ≠ "" := by
  unfold errorText
  intro h
  have hd := congrArg String.data h
  simp [String.data_append] at hd

/-- Unfolding of `archiveCurrentMessage` when it commits: an active role
and a non-empty buffer append exactly one assistant message, persist it,
and reset buffer, loading and controller. -/
theorem archive_appends (s : State) (r : Role) (hr : s.currentRole = some r)
    (hb : s.currentAssistantMessage ≠ "") :
    archiveCurrentMessage s =
      { s with
        messageList := s.messageList ++
          [{ role := Speaker.assistant, content := s.currentAssistantMessage }]
        history := saveCurrentMessages r
          (s.messageList ++
            [{ role := Speaker.assistant, content := s.currentAssistantMessage }]) s.history
        currentAssistantMessage := ""
        loading := false
        controller := none } := by
  unfold archiveCurrentMessage
  rw [hr]
  simp [hb]

/-- C6: every non-abort failure of a generation request — non-2xx status
(message `response.statusText`), missing body (message `No data`), or a
network error (even after partial chunks) — sets the buffer to
`出现错误：<message>` and archives it as a normal assistant message,
persisted in the conversation, with loading cleared; a user-initiated
abort produces no error text: only the partial text that already existed
is archived (nothing at all when it was empty). -/
theorem request_failures_archived (s : State) (r : Role)
    (hr : s.currentRole = some r) :
    (∀ st, (runRequest (.httpError st) s).messageList =
        s.messageList ++ [{ role := Speaker.assistant, content := errorText st }] ∧
      (runRequest (.httpError st) s).history r.role =
        some (s.messageList ++ [{ role := Speaker.assistant, content := errorText st }]) ∧
      (runRequest (.httpError st) s).loading = false) ∧
    ((runRequest .noBody s).messageList =
      s.messageList ++ [{ role := Speaker.assistant, content := errorText "No data" }]) ∧
    (∀ chunks m, (runRequest (.networkError chunks m) s).messageList =
        s.messageList ++ [{ role := Speaker.assistant, content := errorText m }] ∧
      (runRequest (.networkError chunks m) s).loading = false) ∧
    (∀ chunks, (runRequest (.userAbort chunks) s).messageList =
        s.messageList ++
          (if streamChunks "" chunks = "" then []
           else [{ role := Speaker.assistant, content := streamChunks "" chunks }])) := by
  refine ⟨?_, ?_, ?_, ?_⟩
  · intro st
    refine ⟨?_, ?_, ?_⟩ <;>
      simp [runRequest, hr, requestSyncStart, finallyStep, archiveCurrentMessage,
        errorText_ne_empty, saveCurrentMessages, histSet_same, structuredClone_eq]
  · simp [runRequest, hr, requestSyncStart, finallyStep, archiveCurrentMessage,
      errorText_ne_empty]
  · intro chunks m
    constructor <;>
      simp [runRequest, hr, requestSyncStart, finallyStep, archiveCurrentMessage,
        errorText_ne_empty]
  · intro chunks
    by_cases hb : streamChunks "" chunks = ""
    · simp [runRequest, hr, requestSyncStart, stopStreamFetch, finallyStep,
        archiveCurrentMessage, hb]
    · simp [runRequest, hr, requestSyncStart, stopStreamFetch, finallyStep,
        archiveCurrentMessage, hb]

/-- Witness for C6: a concrete 500 response gets archived as an error
bubble. -/
theorem request_failures_archived_witness :
    (runRequest (.httpError "Internal Server Error")
      { messageList := [msgU "hi"], currentAssistantMessage := "", loading := false,
        controller := none, currentRole := some roleBuddha,
        history := emptyHist }).messageList =
      [msgU "hi"] ++
        [{ role := Speaker.assistant, content := errorText "Internal Server Error" }] :=
  ((request_failures_archived _ roleBuddha rfl).1 "Internal Server Error").1

/-- C1: invoking stop mid-stream once the buffer holds
`"partial answer"` appends exactly one assistant message with that
content, persists it under the current role, clears the loading flag, and
the engine's `finally` path is the identity on the state the stop path
produced (the two commit paths are mutually exclusive: only the stop path
commits). -/
theorem stop_archives_exactly_once (s : State) (r : Role) (chunks : List String)
    (hr : s.currentRole = some r)
    (hbuf : streamChunks "" chunks = "partial answer") :
    (runRequest (.userAbort chunks) s).messageList =
      s.messageList ++ [{ role := Speaker.assistant, content := "partial answer" }] ∧
    (runRequest (.userAbort chunks) s).history r.role =
      some (s.messageList ++ [{ role := Speaker.assistant, content := "partial answer" }]) ∧
    (runRequest (.userAbort chunks) s).loading = false ∧
    finallyStep (stopStreamFetch
      { s with loading := true, currentAssistantMessage := "partial answer",
               controller := some false }) =
      stopStreamFetch
        { s with loading := true, currentAssistantMessage := "partial answer",
                 controller := some false } := by
  have hne : ("partial answer" : String) ≠ "" := by decide
  refine ⟨?_, ?_, ?_, ?_⟩ <;>
    simp [runRequest, hr, requestSyncStart, stopStreamFetch, finallyStep,
      archiveCurrentMessage, hbuf, hne, saveCurrentMessages, histSet_same,
      structuredClone_eq]

/-- Witness for C1: stopping after the chunks `"partial "`, `"answer"`. -/
theorem stop_archives_exactly_once_witness :
    (runRequest (.userAbort ["partial ", "answer"])
      { messageList := [msgU "hi"], currentAssistantMessage := "", loading := false,
        controller := none, currentRole := some roleBuddha,
        history := emptyHist }).messageList =
      [msgU "hi"] ++ [{ role := Speaker.assistant, content := "partial answer" }] :=
  (stop_archives_exactly_once _ roleBuddha ["partial ", "answer"] rfl (by decide)).1

/-! ## History frame lemmas: no handler writes another role's entry -/

theorem requestSyncStart_history (s : State) :
    (requestSyncStart s).history = s.history := by
  unfold requestSyncStart
  cases s.currentRole <;> rfl

theorem requestSyncStart_currentRole (s : State) :
    (requestSyncStart s).currentRole = s.currentRole := by
  unfold requestSyncStart
  cases h : s.currentRole <;> simp [h]

theorem archive_history_frame (s : State) (k : String)
    (h : ∀ r, s.currentRole = some r → k ≠ r.role) :
    (archiveCurrentMessage s).history k = s.history k := by
  unfold archiveCurrentMessage
  cases hcr : s.currentRole with
  | none => rfl
  | some r =>
      by_cases hb : s.currentAssistantMessage ≠ ""
      · simp [hb, saveCurrentMessages, histSet, h r hcr]
      · simp [hb]

theorem stop_history_frame (s : State) (k : String)
    (h : ∀ r, s.currentRole = some r → k ≠ r.role) :
    (stopStreamFetch s).history k = s.history k := by
  unfold stopStreamFetch
  cases hc : s.controller with
  | none => rfl
  | some b => exact archive_history_frame _ k h

theorem finallyStep_history_frame (s : State) (k : String)
    (h : ∀ r, s.currentRole = some r → k ≠ r.role) :
    (finallyStep s).history k = s.history k := by
  unfold finallyStep
  cases hc : s.controller with
  | none => exact archive_history_frame _ k h
  | some aborted =>
      cases aborted with
      | true => simp
      | false => simpa using archive_history_frame _ k h

theorem archive_currentRole (s : State) :
    (archiveCurrentMessage s).currentRole = s.currentRole := by
  unfold archiveCurrentMessage
  cases hcr : s.currentRole with
  | none => exact hcr
  | some r => by_cases hb : s.currentAssistantMessage ≠ "" <;> simp [hb, hcr]

theorem stop_currentRole (s : State) :
    (stopStreamFetch s).currentRole = s.currentRole := by
  unfold stopStreamFetch
  cases hc : s.controller with
  | none => rfl
  | some b => exact archive_currentRole _

theorem finallyStop_history_frame (t : State) (k : String)
    (h : ∀ r, t.currentRole = some r → k ≠ r.role) :
    (finallyStep (stopStreamFetch t)).history k = t.history k := by
  have h2 : ∀ r, (stopStreamFetch t).currentRole = some r → k ≠ r.role := by
    intro r hr
    rw [stop_currentRole] at hr
    exact h r hr
  rw [finallyStep_history_frame _ k h2, stop_history_frame t k h]

theorem runRequest_history_frame (outcome : TransportOutcome) (s : State) (k : String)
    (h : ∀ r, s.currentRole = some r → k ≠ r.role) :
    (runRequest outcome s).history k = s.history k := by
  cases hcr : s.currentRole with
  | none =>
      have hid : runRequest outcome s = s := by
        unfold runRequest
        rw [hcr]
      rw [hid]
  | some r =>
      have hsync : ∀ r', (requestSyncStart s).currentRole = some r' → k ≠ r'.role := by
        intro r' hr'
        rw [requestSyncStart_currentRole] at hr'
        exact h r' hr'
      have hsyncHist : (requestSyncStart s).history k = s.history k :=
        congrFun (requestSyncStart_history s) k
      cases outcome with
      | success chunks =>
          have hrun : runRequest (.success chunks) s = finallyStep
              { requestSyncStart s with
                currentAssistantMessage := streamChunks "" chunks } := by
            unfold runRequest
            rw [hcr]
          rw [hrun]
          exact (finallyStep_history_frame
            { requestSyncStart s with currentAssistantMessage := streamChunks "" chunks }
            k (fun r' hr' => hsync r' hr')).trans hsyncHist
      | httpError st =>
          have hrun : runRequest (.httpError st) s = finallyStep
              { requestSyncStart s with currentAssistantMessage := errorText st } := by
            unfold runRequest
            rw [hcr]
          rw [hrun]
          exact (finallyStep_history_frame
            { requestSyncStart s with currentAssistantMessage := errorText st }
            k (fun r' hr' => hsync r' hr')).trans hsyncHist
      | noBody =>
          have hrun : runRequest .noBody s = finallyStep
              { requestSyncStart s with currentAssistantMessage := errorText "No data" } := by
            unfold runRequest
            rw [hcr]
          rw [hrun]
          exact (finallyStep_history_frame
            { requestSyncStart s with currentAssistantMessage := errorText "No data" }
            k (fun r' hr' => hsync r' hr')).trans hsyncHist
      | networkError chunks m =>
          have hrun : runRequest (.networkError chunks m) s = finallyStep
              { requestSyncStart s with currentAssistantMessage := errorText m } := by
            unfold runRequest
            rw [hcr]
          rw [hrun]
          exact (finallyStep_history_frame
            { requestSyncStart s with currentAssistantMessage := errorText m }
            k (fun r' hr' => hsync r' hr')).trans hsyncHist
      | userAbort chunks =>
          have hrun : runRequest (.userAbort chunks) s = finallyStep (stopStreamFetch
              { requestSyncStart s with
                currentAssistantMessage := streamChunks "" chunks }) := by
            unfold runRequest
            rw [hcr]
          rw [hrun]
          exact (finallyStop_history_frame
            { requestSyncStart s with currentAssistantMessage := streamChunks "" chunks }
            k (fun r' hr' => hsync r' hr')).trans hsyncHist

theorem send_history_frame (input : String) (s : State) (k : String)
    (h : ∀ r, s.currentRole = some r → k ≠ r.role) :
    (handleButtonClick input s).history k = s.history k := by
  unfold handleButtonClick
  cases hcr : s.currentRole with
  | none => rfl
  | some r =>
      by_cases hi : input.trim = ""
      · simp [hi]
      · simp [hi, requestSyncStart, hcr, saveCurrentMessages, histSet, h r hcr]

theorem clear_history_frame (s : State) (k : String)
    (h : ∀ r, s.currentRole = some r → k ≠ r.role) :
    (clear s).history k = s.history k := by
  unfold clear
  cases hcr : s.currentRole with
  | none => rfl
  | some r => simp [saveCurrentMessages, histSet, h r hcr]

theorem retry_history_frame (roles : List Role) (s : State) (k : String)
    (h : ∀ r, s.currentRole = some r → k ≠ r.role) :
    (retryLastFetch roles s).1.history k = s.history k := by
  unfold retryLastFetch
  cases hcr : s.currentRole with
  | none => rfl
  | some r =>
      by_cases hlen : s.messageList.length > 0
      · cases hlast : s.messageList.getLast? with
        | none => simp [hlen, hlast]
        | some lastMessage =>
            by_cases hrole : lastMessage.role = Speaker.assistant
            · simp [hlen, hlast, hrole, requestSyncStart, hcr, saveCurrentMessages,
                histSet, h r hcr]
            · simp [hlen, hlast, hrole]
      · simp [hlen]

theorem roleChange_history_frame (newRole : Role) (seed : Option HistMap) (s : State)
    (k : String) (hcur : ∀ r, s.currentRole = some r → k ≠ r.role)
    (hnew : k ≠ newRole.role) :
    (handleRoleChange newRole seed s).history k = s.history k := by
  rcases hcr : s.currentRole with _ | old
  · simp only [handleRoleChange, hcr]
    cases hlk : (seed.getD s.history) newRole.role with
    | none => simp [hlk, histSet, hnew]
    | some l =>
        by_cases hl : l.length > 0
        · simp [hlk, hl]
        · simp [hlk, hl, histSet, hnew]
  · have hold : k ≠ old.role := hcur old hcr
    by_cases hor : old.role ≠ newRole.role
    · simp only [handleRoleChange, hcr, if_pos hor]
      cases hlk : (seed.getD (saveCurrentMessages old s.messageList s.history))
          newRole.role with
      | none => simp [hlk, saveCurrentMessages, histSet, hnew, hold]
      | some l =>
          by_cases hl : l.length > 0
          · simp [hlk, hl, saveCurrentMessages, histSet, hold]
          · simp [hlk, hl, saveCurrentMessages, histSet, hnew, hold]
    · simp only [handleRoleChange, hcr, if_neg hor]
      cases hlk : (seed.getD s.history) newRole.role with
      | none => simp [hlk, histSet, hnew]
      | some l =>
          by_cases hl : l.length > 0
          · simp [hlk, hl]
          · simp [hlk, hl, histSet, hnew]

/-- On switching away, the outgoing role's current list is persisted (as
a value snapshot) under its own identifier. -/
theorem roleChange_persists_old (newRole : Role) (seed : Option HistMap) (s : State)
    (oldRole : Role) (hcr : s.currentRole = some oldRole)
    (hne : oldRole.role ≠ newRole.role) :
    (handleRoleChange newRole seed s).history oldRole.role = some s.messageList := by
  have hne' : ¬ newRole.role = oldRole.role := fun hh => hne hh.symm
  simp only [handleRoleChange, hcr, if_pos hne]
  cases hlk : (seed.getD (saveCurrentMessages oldRole s.messageList s.history))
      newRole.role with
  | none =>
      simp [hlk, saveCurrentMessages, histSet, hne, hne', structuredClone_eq]
  | some l =>
      by_cases hl : l.length > 0
      · simp [hlk, hl, saveCurrentMessages, histSet, structuredClone_eq]
      · simp [hlk, hl, saveCurrentMessages, histSet, hne, hne', structuredClone_eq]

/-- C4: role isolation of the persisted history.  (1) A handler step can
change the entry stored under `rid` only when the role active before the
step has identifier `rid`, or when the step itself is a switch to a role
with identifier `rid` (whose entry is then at most welcome-seeded) — so no
mutation made while a different role is active ever reaches another
role's persisted entry.  (2) Switching away persists the outgoing role's
current list, as a value snapshot, under its own identifier. -/
theorem history_role_isolation (op : Op) (s : State) (rid : String) :
    ((applyOp op s).history rid ≠ s.history rid →
      (∃ r, s.currentRole = some r ∧ r.role = rid) ∨
      (∃ nr seed, op = Op.roleChange nr seed ∧ nr.role = rid)) ∧
    (∀ nr seed oldRole, s.currentRole = some oldRole → oldRole.role ≠ nr.role →
      (handleRoleChange nr seed s).history oldRole.role = some s.messageList) := by
  constructor
  · intro hne
    by_contra hc
    push_neg at hc
    obtain ⟨h1, h2⟩ := hc
    have hcur : ∀ r, s.currentRole = some r → rid ≠ r.role := by
      intro r hr
      exact fun he => h1 r hr he.symm
    apply hne
    cases op with
    | roleChange nr seed =>
        exact roleChange_history_frame nr seed s rid hcur
          (fun he => h2 nr seed rfl he.symm)
    | send input => exact send_history_frame input s rid hcur
    | archive => exact archive_history_frame s rid hcur
    | clear => exact clear_history_frame s rid hcur
    | retry roles => exact retry_history_frame roles s rid hcur
    | stop => exact stop_history_frame s rid hcur
    | request outcome => exact runRequest_history_frame outcome s rid hcur
  · intro nr seed oldRole hcr hne
    exact roleChange_persists_old nr seed s oldRole hcr hne

/-- Witness for C4: a concrete switch away from an active role persists
that role's two-message list under its own identifier. -/
theorem history_role_isolation_witness :
    (handleRoleChange roleZen none
      { messageList := [msgA "善哉", msgU "你好"], currentAssistantMessage := "",
        loading := false, controller := none, currentRole := some roleBuddha,
        history := emptyHist }).history roleBuddha.role =
      some [msgA "善哉", msgU "你好"] :=
  (history_role_isolation (Op.roleChange roleZen none)
    { messageList := [msgA "善哉", msgU "你好"], currentAssistantMessage := "",
      loading := false, controller := none, currentRole := some roleBuddha,
      history := emptyHist } roleBuddha.role).2 roleZen none roleBuddha rfl (by decide)

end QHGPT
